import Mathlib

/-!
Shallow embedding of the bloodgrid-server backend (src/index.js, with the
earlier variants src/unnamed/part_000 and src/unnamed/part_001 where
cited).

Documents stored in the MongoDB collections are modelled as association
lists of string fields (`Doc`); JS object property assignment is
`setField`, a MongoDB `$set` update document is applied with
`mergePatch`, and `updateOne` with a filter is `updateFirst` (MongoDB's
`updateOne` modifies at most the first matching document and reports
`matchedCount` / `modifiedCount`, where `modifiedCount` counts only
documents whose content actually changed).  Donation requests, whose
lifecycle claims are about a fixed set of fields, are modelled by the
structure `DonationRequest`.
-/

namespace BloodGrid

/-- A JSON-like document: an association list from field name to string
value; the first binding for a key is the one that `getField` sees, and
`setField` keeps keys unique when the input had unique keys. -/
abbrev Doc := List (String × String)

/-- Field access, `doc.k` in JS / field match in MongoDB: the value of the
first binding of `k`, or `none` when the field is absent. -/
def getField (d : Doc) (k : String) : Option String :=
  match d with
  | [] => none
  | (k1, v1) :: rest => if k1 = k then some v1 else getField rest k

/-- JS property assignment `doc[k] = v`: replace the binding of `k` in
place if present, otherwise append it. -/
def setField (d : Doc) (k : String) (v : String) : Doc :=
  match d with
  | [] => [(k, v)]
  | (k1, v1) :: rest => if k1 = k then (k, v) :: rest else (k1, v1) :: setField rest k v

/-- Application of a MongoDB `$set` document: assign every field of
`patch`, in order, into `d`. -/
def mergePatch (d : Doc) (patch : Doc) : Doc :=
  patch.foldl (fun acc kv => setField acc kv.1 kv.2) d

/-- Result of a MongoDB `updateOne`: the collection afterwards, plus the
driver's `matchedCount` and `modifiedCount`. -/
structure UpdateResult (α : Type) where
  docs : List α
  matchedCount : Nat
  modifiedCount : Nat
deriving DecidableEq

/-- MongoDB `updateOne`: rewrite the first element satisfying the filter
`p` with `f`; `modifiedCount` is 1 only when the rewrite changed it. -/
def updateFirst [DecidableEq α] (p : α → Bool) (f : α → α) : List α → UpdateResult α
  | [] => ⟨[], 0, 0⟩
  | a :: rest =>
    if p a then ⟨f a :: rest, 1, if f a = a then 0 else 1⟩
    else
      let r := updateFirst p f rest
      ⟨a :: r.docs, r.matchedCount, r.modifiedCount⟩

/-- JS `Math.ceil(a / b)` on nonnegative integers, meaningful for `b > 0`
(for `b = 0` JS produces `Infinity`, outside this model; theorems about
pagination therefore assume a positive limit). -/
def jsCeilDiv (a b : Nat) : Nat := (a + b - 1) / b

/-- Insert `a` into `l` in front of the first element that does not
precede it according to `le`. -/
def insertLe (le : α → α → Bool) (a : α) : List α → List α
  | [] => [a]
  | b :: rest => if le a b then a :: b :: rest else b :: insertLe le a rest

/-- Insertion sort by the boolean relation `le`, modelling the driver's
`sort` cursor option (MongoDB applies the sort before `skip`/`limit`,
regardless of the order the cursor methods are chained in). -/
def sortLe (le : α → α → Bool) : List α → List α
  | [] => []
  | a :: rest => insertLe le a (sortLe le rest)

/-! The users collection (src/index.js). -/

/-- The MongoDB filter `\x7b email \x7d` used by the user routes. -/
def matchesEmail (email : String) (d : Doc) : Bool :=
  getField d "email" == some email

/-- POST /add-user handler core (src/index.js lines 129-147): the stored
document is the request body with `createAt`, `loginAt`, `role` and
`status` assigned afterwards, so the last two always end up `donor` /
`active` whatever the payload contained. -/
def addUser (payload : Doc) (now : String) : Doc :=
  setField (setField (setField (setField payload "createAt" now) "loginAt" now)
    "role" "donor") "status" "active"

/-- PUT /user/update/:email handler core (src/index.js lines 237-259):
`updateOne(\x7b email \x7d, \x7b $set: body \x7d)` with no allow-list on the body. -/
def updateProfile (store : List Doc) (email : String) (patch : Doc) : UpdateResult Doc :=
  updateFirst (matchesEmail email) (fun d => mergePatch d patch) store

/-- The response of PUT /user/update/:email as a status/message pair:
200 when `modifiedCount > 0`, otherwise a 404 that conflates a missing
user with a no-change update.  Only reached when the `updateOne` call
itself succeeded, i.e. when the `$set` document was non-empty. -/
def userUpdateResponse (r : UpdateResult Doc) : Nat × String :=
  if r.modifiedCount > 0 then (200, "Profile updated successfully")
  else (404, "User not found or no changes made")

/-- PUT /user/update/:email end to end.  With an empty body the handler
runs `updateOne(\x7b email \x7d, \x7b $set: \x7b\x7d \x7d)`, which MongoDB rejects with a
FailedToParse error (an empty `$set` operator document is invalid)
before writing anything; the driver's promise rejects and the handler's
catch (src/index.js lines 254-258) answers 500 "Failed to update
profile".  With a non-empty body the update runs (`updateProfile`) and
the `modifiedCount` branch answers as `userUpdateResponse`.  Returns
(collection afterwards, HTTP status, message). -/
def userUpdateRoute (store : List Doc) (email : String) (patch : Doc) :
    List Doc × Nat × String :=
  if patch = [] then (store, 500, "Failed to update profile")
  else
    let res := updateProfile store email patch
    (res.docs, (userUpdateResponse res).1, (userUpdateResponse res).2)

/-- The `verifyAdmin` middleware's test (src/index.js lines 62-71): look
the caller's account up fresh by email; pass only when it exists and its
stored role is `admin`. -/
def isStoredAdmin (users : List Doc) (email : String) : Bool :=
  match users.find? (matchesEmail email) with
  | some u => getField u "role" == some "admin"
  | none => false

/-- The status filter of the admin listings (src/index.js lines 460-461,
489-490): `status !== "all"` selects documents whose `status` field
equals it, otherwise no filter. -/
def statusFilterDocs (store : List Doc) (status : String) : List Doc :=
  if status ≠ "all" then store.filter (fun d => getField d "status" == some status)
  else store

/-- GET /admin/users handler core (src/index.js lines 454-480), after the
token and admin gates; query defaults are page=1, limit=10, status="all".
Returns (page of filtered users, totalPages, total), where `totalPages`
is `Math.ceil(total / limit)` for `total = countDocuments()` over the
WHOLE collection, not over the filtered set. -/
def adminListUsers (store : List Doc) (page limit : Nat) (status : String) :
    List Doc × Nat × Nat :=
  (((statusFilterDocs store status).drop ((page - 1) * limit)).take limit,
    jsCeilDiv store.length limit, store.length)

/-- GET /admin/users route including its `verifyAdmin` gate: a caller
whose stored role is not `admin` (or with no account document) gets 403
and no data. -/
def adminUsersRoute (users : List Doc) (callerEmail : String) (page limit : Nat)
    (status : String) : Except Nat (List Doc × Nat × Nat) :=
  if isStoredAdmin users callerEmail then Except.ok (adminListUsers users page limit status)
  else Except.error 403

/-- Sort key relation of GET /fundraiser-payments: `paidAt` descending
(a document without the field sorts as the empty string, standing in for
MongoDB's missing-field-sorts-lowest rule). -/
def paidAtDesc (a b : Doc) : Bool :=
  decide ((getField b "paidAt").getD "" ≤ (getField a "paidAt").getD "")

/-- GET /fundraiser-payments route (src/index.js lines 753-764) with its
`verifyAdmin` gate: admin-only listing of all payment records, newest
first. -/
def fundraiserPaymentsRoute (users payments : List Doc) (callerEmail : String) :
    Except Nat (List Doc) :=
  if isStoredAdmin users callerEmail then Except.ok (sortLe paidAtDesc payments)
  else Except.error 403

/-- PATCH /admin/users/:id handler (src/index.js lines 511-544).  The
route is registered with NO middleware, so the handler has no caller
identity at all: `role?`/`status?` are the (truthy) body fields, the
filter is `\x7b _id \x7d`, and the update runs for whoever calls.  Returns
(collection afterwards, HTTP status, message). -/
def adminUpdateUser (users : List Doc) (id : String) (role? status? : Option String) :
    List Doc × Nat × String :=
  match role?, status? with
  | none, none => (users, 400, "No valid fields to update.")
  | _, _ =>
    let patch : Doc :=
      (match role? with | some r => [("role", r)] | none => []) ++
      (match status? with | some s => [("status", s)] | none => [])
    let res := updateFirst (fun d => getField d "_id" == some id)
      (fun d => mergePatch d patch) users
    if res.matchedCount = 0 then (users, 404, "User not found.")
    else (res.docs, 200, "User updated successfully.")

/-! The requests collection. -/

/-- The donor sub-record attached by a claim. -/
structure Donor where
  name : String
  email : String
deriving DecidableEq

/-- A donation-request document, with the fields the lifecycle routes
touch.  `donor` is the sub-record written by the src/index.js donate
handler (`\x7b name, email \x7d`); `donar` (field name as spelled in the
source) is the one written by the src/unnamed/part_000 donate handler
(`\x7b donorName, donorEmail \x7d`). -/
structure DonationRequest where
  id : Nat
  requesterEmail : String
  status : String
  donor : Option Donor
  donar : Option Donor
  createdAt : Nat
deriving DecidableEq

/-- POST /donation-requests handler core (src/index.js lines 263-282):
the stored document is the body with `createdAt` and `status` assigned
afterwards, so `status` is always `pending` whatever the payload held. -/
def createDonationRequest (payload : Doc) (now : String) : Doc :=
  setField (setField payload "createdAt" now) "status" "pending"

/-- Query filter of GET /my-donation-requests/user: `requesterEmail`
always, plus `status` when the (truthy) query parameter is present. -/
def matchesRequester (email : String) (status? : Option String)
    (r : DonationRequest) : Bool :=
  r.requesterEmail == email &&
    (match status? with
     | some s => r.status == s
     | none => true)

/-- `createdAt` descending: the sort `\x7b createdAt: -1 \x7d`. -/
def createdAtDesc (a b : DonationRequest) : Bool :=
  Nat.ble b.createdAt a.createdAt

/-- GET /my-donation-requests/user handler core (src/index.js lines
310-335): query defaults page=1, limit=5; `skip = (page-1)*limit`; the
total is `countDocuments` of the same filter; the cursor sorts by
`createdAt` descending, then skips and limits; `totalPages =
Math.ceil(total / limit)`. -/
def myDonationRequests (store : List DonationRequest) (email : String)
    (status? : Option String) (page? limit? : Option Nat) :
    List DonationRequest × Nat :=
  let page := page?.getD 1
  let limit := limit?.getD 5
  let skip := (page - 1) * limit
  let q := store.filter (matchesRequester email status?)
  let total := q.length
  (((sortLe createdAtDesc q).drop skip).take limit, jsCeilDiv total limit)

/-- PATCH /donation-requests/:id/donate handler of src/index.js (lines
337-379): build `updateFields` from the truthy body fields (`status`, and
the donor pair when both parts are present), reject an empty update with
400, then `updateOne(\x7b _id \x7d, \x7b $set: updateFields \x7d)` — the filter has
NO `status: "pending"` predicate — and report 400 when `modifiedCount` is
0, 200 otherwise.  Returns (collection afterwards, HTTP status, message). -/
def donateUpdate (store : List DonationRequest) (id : Nat)
    (status? donorName? donorEmail? : Option String) :
    List DonationRequest × Nat × String :=
  let setDonor := donorName?.isSome && donorEmail?.isSome
  if status?.isNone && !setDonor then
    (store, 400, "Nothing to update. Provide status or donor info.")
  else
    let f : DonationRequest → DonationRequest := fun r =>
      let r1 := match status? with
        | some s => { r with status := s }
        | none => r
      match donorName?, donorEmail? with
      | some n, some e => { r1 with donor := some ⟨n, e⟩ }
      | _, _ => r1
    let res := updateFirst (fun r => r.id == id) f store
    if res.modifiedCount = 0 then
      (res.docs, 400, "No changes applied. The request might not exist or is already updated.")
    else (res.docs, 200, "Donation request updated successfully.")

/-- PATCH /donation-requests/:id/donate handler of src/unnamed/part_000
(lines 196-227): the conditional update `updateOne(\x7b _id, status:
"pending" \x7d, \x7b $set: \x7b status: "inprogress", donar: ... \x7d \x7d)`; zero
modified documents is reported as the lost-claim 400. -/
def donateUpdateP0 (store : List DonationRequest) (id : Nat)
    (donorName donorEmail : String) : List DonationRequest × Nat × String :=
  let res := updateFirst (fun r => r.id == id && r.status == "pending")
    (fun r => { r with status := "inprogress", donar := some ⟨donorName, donorEmail⟩ })
    store
  if res.modifiedCount = 0 then
    (res.docs, 400, "Unable to confirm donation. It may have already been claimed.")
  else (res.docs, 200, "Donation confirmed. Status set to inprogress.")

/-- Status filter of GET /admin/donation-requests. -/
def statusFilterReqs (store : List DonationRequest) (status : String) :
    List DonationRequest :=
  if status ≠ "all" then store.filter (fun r => r.status == status) else store

/-- GET /admin/donation-requests handler core (src/index.js lines
483-509), after the token and admin/volunteer gates; defaults page=1,
limit=10, status="all".  As for /admin/users, `totalPages` divides the
UNFILTERED `countDocuments()` by the limit. -/
def adminListRequests (store : List DonationRequest) (page limit : Nat)
    (status : String) : List DonationRequest × Nat :=
  (((statusFilterReqs store status).drop ((page - 1) * limit)).take limit,
    jsCeilDiv store.length limit)

/-! The blogs collection. -/

/-- A blog document paired with its `_id`. -/
abbrev BlogStore := List (Nat × Doc)

/-- `statusChanged` of PATCH /blogs/:id (src/index.js lines 630-635):
the body has a `status` field and its value differs from the stored one
(an absent stored `status` counts as different). -/
def blogStatusChanged (blog patch : Doc) : Bool :=
  match getField patch "status" with
  | some v => !(getField blog "status" == some v)
  | none => false

/-- The `$set` document PATCH /blogs/:id actually writes: the body,
with `updatedAt = now` assigned into it exactly when the status did not
change (src/index.js lines 637-639). -/
def blogUpdateFields (blog patch : Doc) (now : String) : Doc :=
  if blogStatusChanged blog patch then patch else setField patch "updatedAt" now

/-- The blog document after PATCH /blogs/:id has updated it. -/
def blogAfter (blog patch : Doc) (now : String) : Doc :=
  mergePatch blog (blogUpdateFields blog patch now)

/-- PATCH /blogs/:id handler (src/index.js lines 620-655): `findOne` the
blog (404 when absent), compute the fields as above, `updateOne` by
`_id`, 404 again when nothing matched, else 200.  Returns (collection
afterwards, HTTP status). -/
def patchBlog (store : BlogStore) (id : Nat) (patch : Doc) (now : String) :
    BlogStore × Nat :=
  match store.find? (fun b => b.1 == id) with
  | none => (store, 404)
  | some b =>
    let fields := blogUpdateFields b.2 patch now
    let res := updateFirst (fun x => x.1 == id)
      (fun x => (x.1, mergePatch x.2 fields)) store
    if res.matchedCount = 0 then (store, 404) else (res.docs, 200)

/-! The identity gate. -/

/-- JS `str.split(" ")`: divide the character list at every single
space character. -/
def splitAtSpaces : List Char → List (List Char)
  | [] => [[]]
  | c :: rest =>
    match splitAtSpaces rest with
    | [] => [[c]]
    | g :: gs => if c = ' ' then [] :: g :: gs else (c :: g) :: gs

/-- `authHeaders.split(" ")[1]` of the middleware: the second
space-separated part of the header, when the header has one. -/
def headerToken (h : String) : Option String :=
  ((splitAtSpaces h.data).get? 1).map (fun cs => String.mk cs)

/-- The `verifyFirebaseToken` middleware (src/index.js lines 44-61),
parameterised by the provider's verification (`verify tok = some email`
when the token checks out).  Outcome: the HTTP error status sent, or the
decoded email passed to the next handler.  A missing or falsy (empty)
`Authorization` header is 401; a header without a second
space-separated part, or with an empty (falsy) one, is 401; a token the
provider rejects is answered with 403 "Forbidden access." by the catch
block; a verified token passes. -/
def verifyFirebaseToken (verify : String → Option String)
    (authHeader : Option String) : Except Nat String :=
  match authHeader with
  | none => Except.error 401
  | some h =>
    match headerToken h with
    | none => Except.error 401
    | some t =>
      if t = "" then Except.error 401
      else
        match verify t with
        | none => Except.error 403
        | some email => Except.ok email

/-! Concrete stores used by the closed theorems. -/

/-- A donation request that has already left `pending`, with donor Alice
attached by a previous successful claim. -/
def reqClaimed : DonationRequest :=
  ⟨1, "umme@example.com", "inprogress", some ⟨"Alice", "alice@example.com"⟩, none, 5⟩

/-- A canceled donation request with no donor. -/
def reqCanceled : DonationRequest :=
  ⟨2, "rafi@example.com", "canceled", none, none, 7⟩

/-- A users collection with one admin and one plain donor. -/
def usersAdminDemo : List Doc :=
  [ [("_id", "u1"), ("email", "admin@example.com"), ("role", "admin")],
    [("_id", "u2"), ("email", "bob@example.com"), ("role", "donor"), ("status", "active")] ]

/-- Two payment records. -/
def paymentsDemo : List Doc :=
  [ [("paidAt", "2024-01-01"), ("amount", "10")],
    [("paidAt", "2024-02-01"), ("amount", "20")] ]

/-- A stored blog in `draft` with an update timestamp. -/
def blogDemo : Doc :=
  [("status", "draft"), ("updatedAt", "2024-01-01"), ("title", "hello")]

/-- A registered user document. -/
def userUmme : Doc :=
  [("email", "umme@example.com"), ("role", "donor"), ("status", "active")]

/-- A profile patch that tries to escalate role and change status. -/
def profilePatch : Doc := [("role", "admin"), ("status", "blocked")]

/-- The `n`-th matching donation request of the pagination example. -/
def pageReq (n : Nat) : DonationRequest :=
  ⟨n, "rafia@example.com", "pending", none, none, n⟩

/-- Twelve matching requests (creation times 1..12) plus one for another
requester. -/
def reqsTwelve : List DonationRequest :=
  ((List.range 12).map (fun n => pageReq (n + 1))) ++
    [⟨99, "other@example.com", "pending", none, none, 50⟩]

/-- Twenty users of which exactly one has status `active`. -/
def usersTwenty : List Doc :=
  List.replicate 19 [("status", "blocked")] ++ [[("status", "active")]]

/-- Twenty donation requests of which exactly one is `pending`. -/
def reqsTwenty : List DonationRequest :=
  ((List.range 19).map (fun n => ⟨n, "x@example.com", "done", none, none, n⟩)) ++
    [⟨42, "x@example.com", "pending", none, none, 42⟩]

/-! Lemmas about the document and collection operations. -/

theorem getField_setField_self (d : Doc) (k v : String) :
    getField (setField d k v) k = some v := by
  induction d with
  | nil => simp [setField, getField]
  | cons a rest ih =>
    by_cases h : a.1 = k
    · simp [setField, h, getField]
    · simp [setField, h, getField, ih]

theorem getField_setField_ne (d : Doc) (k k2 v : String) (hne : k ≠ k2) :
    getField (setField d k v) k2 = getField d k2 := by
  induction d with
  | nil => simp [setField, getField, hne]
  | cons a rest ih =>
    by_cases h : a.1 = k
    · simp [setField, h, getField, hne]
    · simp [setField, h, getField, ih]

theorem setField_of_not_mem (d : Doc) (k v : String) (h : k ∉ d.map Prod.fst) :
    setField d k v = d ++ [(k, v)] := by
  induction d with
  | nil => simp [setField]
  | cons a rest ih =>
    simp only [List.map_cons, List.mem_cons] at h
    push_neg at h
    have hne : a.1 ≠ k := Ne.symm h.1
    simp [setField, hne, ih h.2]

theorem mergePatch_nil (d : Doc) : mergePatch d [] = d := rfl

theorem mergePatch_cons (d : Doc) (a : String × String) (rest : Doc) :
    mergePatch d (a :: rest) = mergePatch (setField d a.1 a.2) rest := rfl

theorem mergePatch_append (d : Doc) (p1 p2 : Doc) :
    mergePatch d (p1 ++ p2) = mergePatch (mergePatch d p1) p2 := by
  simp [mergePatch, List.foldl_append]

theorem getField_mergePatch_not_mem (d : Doc) (patch : Doc) (k : String)
    (h : k ∉ patch.map Prod.fst) :
    getField (mergePatch d patch) k = getField d k := by
  induction patch generalizing d with
  | nil => rfl
  | cons a rest ih =>
    simp only [List.map_cons, List.mem_cons] at h
    push_neg at h
    rw [mergePatch_cons, ih _ h.2, getField_setField_ne _ _ _ _ (fun hh => h.1 hh.symm)]

theorem getField_mergePatch_mem (d : Doc) (patch : Doc) (k v : String)
    (hnd : (patch.map Prod.fst).Nodup) (hmem : (k, v) ∈ patch) :
    getField (mergePatch d patch) k = some v := by
  induction patch generalizing d with
  | nil => cases hmem
  | cons a rest ih =>
    simp only [List.map_cons, List.nodup_cons] at hnd
    rcases List.mem_cons.mp hmem with h | h
    · subst h
      rw [mergePatch_cons, getField_mergePatch_not_mem _ _ _ hnd.1,
        getField_setField_self]
    · exact (mergePatch_cons d a rest) ▸ ih _ hnd.2 h

theorem updateFirst_no_match [DecidableEq α] (p : α → Bool) (f : α → α)
    (l : List α) (h : ∀ a ∈ l, p a = false) :
    updateFirst p f l = ⟨l, 0, 0⟩ := by
  induction l with
  | nil => rfl
  | cons a rest ih =>
    have ha := h a (List.mem_cons_self a rest)
    simp [updateFirst, ha, ih (fun x hx => h x (List.mem_cons_of_mem a hx))]

theorem updateFirst_first_match [DecidableEq α] (p : α → Bool) (f : α → α)
    (pre post : List α) (u : α) (hpre : ∀ a ∈ pre, p a = false) (hu : p u = true) :
    updateFirst p f (pre ++ u :: post) =
      ⟨pre ++ f u :: post, 1, if f u = u then 0 else 1⟩ := by
  induction pre with
  | nil => simp [updateFirst, hu]
  | cons a rest ih =>
    have ha := hpre a (List.mem_cons_self a rest)
    have ih2 := ih (fun x hx => hpre x (List.mem_cons_of_mem a hx))
    simp only [List.cons_append, updateFirst, ha, Bool.false_eq_true, if_false]
    rw [List.append_eq, ih2]

theorem updateFirst_of_fix [DecidableEq α] (p : α → Bool) (f : α → α)
    (l : List α) (hf : ∀ a, f a = a) :
    (updateFirst p f l).docs = l ∧ (updateFirst p f l).modifiedCount = 0 := by
  induction l with
  | nil => exact ⟨rfl, rfl⟩
  | cons a rest ih =>
    by_cases hp : p a
    · simp [updateFirst, hp, hf a]
    · simp [updateFirst, hp, ih.1, ih.2]

theorem find_first_match (p : α → Bool) (pre post : List α) (u : α)
    (hpre : ∀ a ∈ pre, p a = false) (hu : p u = true) :
    (pre ++ u :: post).find? p = some u := by
  induction pre with
  | nil => simp [List.find?, hu]
  | cons a rest ih =>
    have ha := hpre a (List.mem_cons_self a rest)
    simp only [List.cons_append, List.find?, ha]
    exact ih (fun x hx => hpre x (List.mem_cons_of_mem a hx))

theorem insertLe_perm (le : α → α → Bool) (a : α) (l : List α) :
    (insertLe le a l).Perm (a :: l) := by
  induction l with
  | nil => exact List.Perm.refl _
  | cons b rest ih =>
    by_cases h : le a b
    · simp [insertLe, h]
    · simp only [insertLe, h, Bool.false_eq_true, if_false]
      exact (ih.cons b).trans (List.Perm.swap a b rest)

theorem sortLe_perm (le : α → α → Bool) (l : List α) :
    (sortLe le l).Perm l := by
  induction l with
  | nil => exact List.Perm.refl _
  | cons a rest ih =>
    exact (insertLe_perm le a (sortLe le rest)).trans (ih.cons a)

theorem insertLe_sorted (le : α → α → Bool)
    (htot : ∀ a b, le a b = true ∨ le b a = true)
    (htrans : ∀ a b c, le a b = true → le b c = true → le a c = true)
    (a : α) (l : List α) (hl : l.Pairwise (fun x y => le x y = true)) :
    (insertLe le a l).Pairwise (fun x y => le x y = true) := by
  induction l with
  | nil => simp [insertLe]
  | cons b rest ih =>
    rcases List.pairwise_cons.mp hl with ⟨hb, hrest⟩
    by_cases h : le a b
    · simp only [insertLe, h, if_true]
      refine List.pairwise_cons.mpr ⟨?_, hl⟩
      intro x hx
      rcases List.mem_cons.mp hx with hx | hx
      · exact hx ▸ h
      · exact htrans a b x h (hb x hx)
    · simp only [insertLe, h, Bool.false_eq_true, if_false]
      refine List.pairwise_cons.mpr ⟨?_, ih hrest⟩
      intro x hx
      have hx2 := (insertLe_perm le a rest).mem_iff.mp hx
      rcases List.mem_cons.mp hx2 with hx2 | hx2
      · rcases htot a b with hab | hba
        · exact absurd hab h
        · exact hx2 ▸ hba
      · exact hb x hx2

theorem sortLe_sorted (le : α → α → Bool)
    (htot : ∀ a b, le a b = true ∨ le b a = true)
    (htrans : ∀ a b c, le a b = true → le b c = true → le a c = true)
    (l : List α) :
    (sortLe le l).Pairwise (fun x y => le x y = true) := by
  induction l with
  | nil => exact List.Pairwise.nil
  | cons a rest ih => exact insertLe_sorted le htot htrans a (sortLe le rest) ih

/-- `jsCeilDiv a b` is the ceiling of `a / b` for a positive divisor:
it is the least number of `b`-sized pages that cover `a` items. -/
theorem jsCeilDiv_spec (a b : Nat) (hb : 0 < b) :
    a ≤ jsCeilDiv a b * b ∧ jsCeilDiv a b * b < a + b := by
  have h1 := Nat.div_add_mod (a + b - 1) b
  have h2 : (a + b - 1) % b < b := Nat.mod_lt _ hb
  unfold jsCeilDiv
  rw [Nat.mul_comm]
  omega

/-- The part_000 donate handler leaves the collection untouched and
reports the lost-claim 400 whenever no stored request is both the target
and still pending — in particular whenever the target has already been
claimed or canceled. -/
theorem donateUpdateP0_of_no_pending_match (store : List DonationRequest)
    (id : Nat) (dn de : String)
    (h : ∀ r ∈ store, (r.id == id && r.status == "pending") = false) :
    donateUpdateP0 store id dn de =
      (store, 400, "Unable to confirm donation. It may have already been claimed.") := by
  unfold donateUpdateP0
  rw [updateFirst_no_match _ _ _ h]
  rfl

/-- The part_000 donate handler, on the first matching pending request,
atomically moves it to `inprogress` with the donor sub-record attached
and reports success. -/
theorem donateUpdateP0_claims_pending (pre post : List DonationRequest)
    (u : DonationRequest) (dn de : String)
    (hpre : ∀ r ∈ pre, (r.id == u.id && r.status == "pending") = false)
    (hs : u.status = "pending") :
    donateUpdateP0 (pre ++ u :: post) u.id dn de =
      (pre ++ { u with status := "inprogress", donar := some ⟨dn, de⟩ } :: post,
        200, "Donation confirmed. Status set to inprogress.") := by
  have hu : (u.id == u.id && u.status == "pending") = true := by simp [hs]
  unfold donateUpdateP0
  rw [updateFirst_first_match _ _ _ _ _ hpre hu]
  have hne : ({ u with status := "inprogress", donar := some ⟨dn, de⟩ } : DonationRequest) ≠ u := by
    intro he
    have h2 : "inprogress" = u.status := congrArg DonationRequest.status he
    rw [hs] at h2
    exact absurd h2 (by decide)
  simp [hne]

/-- C1: evaluation at a failing input of the current code (src/index.js).
The stored request `reqClaimed` has already left `pending` with donor
Alice attached, yet the donate route — whose `updateOne` filter has no
`status: "pending"` predicate — accepts a later claim naming Bob,
overwrites the donor sub-record with Bob, and reports success; so a
donation request can hold two distinct accepted donors over its history,
violating the claimed invariant (which the conditional variant of
src/unnamed/part_000, cf. `donateUpdateP0_of_no_pending_match`, does
enforce). -/
theorem c1_donate_replaces_accepted_donor :
    reqClaimed.status ≠ "pending" ∧
    reqClaimed.donor = some ⟨"Alice", "alice@example.com"⟩ ∧
    donateUpdate [reqClaimed] 1 none (some "Bob") (some "bob@example.com") =
      ([{ reqClaimed with donor := some ⟨"Bob", "bob@example.com"⟩ }],
        200, "Donation request updated successfully.") ∧
    (some (⟨"Bob", "bob@example.com"⟩ : Donor) ≠ some (⟨"Alice", "alice@example.com"⟩ : Donor)) := by
  decide

/-- C2: evaluation at a failing input of the current code (src/index.js).
On a request whose stored status is `canceled` — not `pending` — the
donate route still applies the transition to `inprogress`, attaches the
donor, and answers 200, instead of matching zero documents and failing
with the already-claimed 400 while leaving the request unchanged: the
write is not conditional on `status = "pending"`. -/
theorem c2_donate_not_conditional_on_pending :
    reqCanceled.status = "canceled" ∧
    donateUpdate [reqCanceled] 2 (some "inprogress") (some "Bob") (some "bob@example.com") =
      ([{ reqCanceled with status := "inprogress", donor := some ⟨"Bob", "bob@example.com"⟩ }],
        200, "Donation request updated successfully.") := by
  decide

/-- C3 counterexample: a present, well-formed bearer header whose token
fails provider verification is answered with 403 by the middleware's
catch block, not with 401 as the claim states. -/
theorem c3_verification_failure_is_403 :
    verifyFirebaseToken (fun _ => none) (some "Bearer expiredtoken") =
      Except.error 403 ∧
    (Except.error 403 : Except Nat String) ≠ Except.error 401 := by
  exact ⟨rfl, by simp⟩

/-- C3 amended: the identity gate sends 401 when the credential is
missing (no header, or no token part after splitting the header on
spaces, or an empty token part); a syntactically present token that the
provider rejects (expired, wrong signature) is answered with 403; a
verified token passes the decoded email on. -/
theorem c3_identity_gate_behaviour (verify : String → Option String)
    (h t : String) :
    verifyFirebaseToken verify none = Except.error 401 ∧
    (headerToken h = none → verifyFirebaseToken verify (some h) = Except.error 401) ∧
    (headerToken h = some "" → verifyFirebaseToken verify (some h) = Except.error 401) ∧
    (headerToken h = some t → t ≠ "" → verify t = none →
      verifyFirebaseToken verify (some h) = Except.error 403) ∧
    (∀ e, headerToken h = some t → t ≠ "" → verify t = some e →
      verifyFirebaseToken verify (some h) = Except.ok e) := by
  refine ⟨rfl, ?_, ?_, ?_, ?_⟩
  · intro h1
    simp [verifyFirebaseToken, h1]
  · intro h1
    simp [verifyFirebaseToken, h1]
  · intro h1 h2 h3
    simp [verifyFirebaseToken, h1, h2, h3]
  · intro e h1 h2 h3
    simp [verifyFirebaseToken, h1, h2, h3]

/-- Witness for `c3_identity_gate_behaviour` at a concrete header, token
and failing verifier. -/
theorem c3_identity_gate_behaviour_witness :
    headerToken "Bearer tok" = some "tok" ∧ ("tok" : String) ≠ "" ∧
    verifyFirebaseToken (fun _ => none) (some "Bearer tok") = Except.error 403 := by
  refine ⟨rfl, by decide, ?_⟩
  exact (c3_identity_gate_behaviour (fun _ => none) "Bearer tok" "tok").2.2.2.1
    rfl (by decide) rfl

/-- C4: the two admin listings are gated — the stored-role lookup denies
the donor Bob with 403 and admits the admin — but PATCH /admin/users/:id
is registered with no middleware at all: evaluated on the same
collection, the role update on Bob's account goes through for whoever
calls (the handler has no caller identity to check) and answers 200,
instead of the claimed Forbidden-with-no-mutation for non-admins. -/
theorem c4_admin_update_route_unguarded :
    isStoredAdmin usersAdminDemo "bob@example.com" = false ∧
    adminUsersRoute usersAdminDemo "bob@example.com" 1 10 "all" = Except.error 403 ∧
    fundraiserPaymentsRoute usersAdminDemo paymentsDemo "bob@example.com" =
      Except.error 403 ∧
    adminUsersRoute usersAdminDemo "admin@example.com" 1 10 "all" =
      Except.ok (adminListUsers usersAdminDemo 1 10 "all") ∧
    adminUpdateUser usersAdminDemo "u2" (some "admin") none =
      ([ [("_id", "u1"), ("email", "admin@example.com"), ("role", "admin")],
         [("_id", "u2"), ("email", "bob@example.com"), ("role", "admin"), ("status", "active")] ],
        200, "User updated successfully.") := by
  refine ⟨rfl, rfl, rfl, rfl, ?_⟩
  decide

/-- C5: server-assigned fields win over the payload.  Whatever the
request body contained, a freshly created account stores role `donor`
and status `active`, and a freshly created donation request stores
status `pending`. -/
theorem c5_create_forces_server_fields (payload req : Doc) (now now2 : String) :
    getField (addUser payload now) "role" = some "donor" ∧
    getField (addUser payload now) "status" = some "active" ∧
    getField (createDonationRequest req now2) "status" = some "pending" := by
  refine ⟨?_, ?_, ?_⟩
  · unfold addUser
    rw [getField_setField_ne _ _ _ _ (by decide), getField_setField_self]
  · exact getField_setField_self _ _ _
  · exact getField_setField_self _ _ _

/-- C6 counterexample: a patch that changes the status AND itself carries
an `updatedAt` field.  The handler skips adding its own timestamp
(status changed), but `$set` still writes the patch's `updatedAt`, so the
stored `updatedAt` does NOT stay unchanged, contradicting the claim as
stated for every patch. -/
theorem c6_status_patch_can_carry_updatedAt :
    blogStatusChanged blogDemo [("status", "published"), ("updatedAt", "1999-01-01")] = true ∧
    getField blogDemo "updatedAt" = some "2024-01-01" ∧
    getField (blogAfter blogDemo [("status", "published"), ("updatedAt", "1999-01-01")]
      "2024-06-01") "updatedAt" = some "1999-01-01" ∧
    (some "1999-01-01" : Option String) ≠ some "2024-01-01" ∧
    (patchBlog [(1, blogDemo)] 1 [("status", "published"), ("updatedAt", "1999-01-01")]
      "2024-06-01").2 = 200 := by
  decide

/-- C6 amended: for a stored blog and a patch that does not itself name
`updatedAt`, the update succeeds (200) and rewrites exactly the found
blog; `updatedAt` is left unchanged when the patch changes `status`
relative to the stored value, and is refreshed to now otherwise; every
other stored field not named in the patch is unchanged. -/
theorem c6_blog_update_timestamp_policy (pre post : BlogStore) (id : Nat)
    (blog patch : Doc) (now : String)
    (hpre : ∀ b ∈ pre, (b.1 == id) = false)
    (hupd : "updatedAt" ∉ patch.map Prod.fst) :
    patchBlog (pre ++ (id, blog) :: post) id patch now =
      (pre ++ (id, blogAfter blog patch now) :: post, 200) ∧
    (blogStatusChanged blog patch = true →
      getField (blogAfter blog patch now) "updatedAt" = getField blog "updatedAt") ∧
    (blogStatusChanged blog patch = false →
      getField (blogAfter blog patch now) "updatedAt" = some now) ∧
    (∀ k, k ∉ patch.map Prod.fst → k ≠ "updatedAt" →
      getField (blogAfter blog patch now) k = getField blog k) := by
  refine ⟨?_, ?_, ?_, ?_⟩
  · have hfind : (pre ++ (id, blog) :: post).find? (fun b => b.1 == id) = some (id, blog) :=
      find_first_match _ pre post (id, blog) hpre (by simp)
    have hupdate := updateFirst_first_match (fun x : Nat × Doc => x.1 == id)
      (fun x => (x.1, mergePatch x.2 (blogUpdateFields blog patch now)))
      pre post (id, blog) hpre (by simp)
    unfold patchBlog
    rw [hfind]
    simp only [hupdate, blogAfter]
    simp
  · intro hs
    unfold blogAfter blogUpdateFields
    rw [if_pos hs]
    exact getField_mergePatch_not_mem _ _ _ hupd
  · intro hs
    unfold blogAfter blogUpdateFields
    rw [if_neg (by simp [hs]), setField_of_not_mem _ _ _ hupd, mergePatch_append]
    exact getField_setField_self _ _ _
  · intro k hk hkne
    by_cases hs : blogStatusChanged blog patch
    · unfold blogAfter blogUpdateFields
      rw [if_pos hs]
      exact getField_mergePatch_not_mem _ _ _ hk
    · unfold blogAfter blogUpdateFields
      rw [if_neg hs, setField_of_not_mem _ _ _ hupd, mergePatch_append]
      have h1 := getField_setField_ne (mergePatch blog patch) "updatedAt" k now (Ne.symm hkne)
      exact h1.trans (getField_mergePatch_not_mem _ _ _ hk)

/-- Witness for `c6_blog_update_timestamp_policy` at a concrete blog:
a non-status patch refreshes `updatedAt` to now, and a pure status
change leaves the stored `updatedAt` as it was. -/
theorem c6_blog_update_timestamp_policy_witness :
    getField (blogAfter blogDemo [("title", "updated")] "2024-06-01") "updatedAt" =
      some "2024-06-01" ∧
    getField (blogAfter blogDemo [("status", "published")] "2024-06-01") "updatedAt" =
      some "2024-01-01" := by
  constructor
  · exact (c6_blog_update_timestamp_policy [] [] 1 blogDemo [("title", "updated")]
      "2024-06-01" (by intro b hb; cases hb) (by decide)).2.2.1 (by decide)
  · have h := (c6_blog_update_timestamp_policy [] [] 1 blogDemo [("status", "published")]
      "2024-06-01" (by intro b hb; cases hb) (by decide)).2.1 (by decide)
    exact h.trans (by decide)

/-- C7 amended: for every store and email, the empty patch never changes
any stored data — the storage layer rejects the empty `$set` update
document before writing — but the call is not accepted: the route's
catch answers the 500 "Failed to update profile" error, so no
no-modification success report exists. -/
theorem c7_empty_patch_unchanged_but_500 (store : List Doc) (email : String) :
    (userUpdateRoute store email []).1 = store ∧
    (userUpdateRoute store email []).2 = (500, "Failed to update profile") := by
  exact ⟨rfl, rfl⟩

/-- C7 counterexample: with a registered user and an empty patch, the
stored data is unchanged (as claimed) but the call fails with the 500
"Failed to update profile" error — MongoDB rejects the empty `$set`
operator with FailedToParse — so it is not accepted with a
no-modification report. -/
theorem c7_empty_patch_rejected_500 :
    (userUpdateRoute [userUmme] "umme@example.com" []) =
      ([userUmme], 500, "Failed to update profile") ∧
    (userUpdateRoute [userUmme] "umme@example.com" []).2.1 ≠ 200 := by
  decide

/-- C8: the requester listing filters by requester email (and optional
status), sorts the matches newest-first by creation time, skips
`(page-1)*limit` of them and returns at most `limit`; `totalPages` is
the ceiling of the match count over the limit (characterised as the
least number of `limit`-sized pages covering the matches); omitted query
parameters default to page 1 and limit 5. -/
theorem c8_my_requests_pagination (store : List DonationRequest) (email : String)
    (status? : Option String) (page limit : Nat) (hp : 1 ≤ page) (hl : 1 ≤ limit) :
    (myDonationRequests store email status? (some page) (some limit)).1 =
      ((sortLe createdAtDesc (store.filter (matchesRequester email status?))).drop
        ((page - 1) * limit)).take limit ∧
    (myDonationRequests store email status? (some page) (some limit)).1.length ≤ limit ∧
    (sortLe createdAtDesc (store.filter (matchesRequester email status?))).Perm
      (store.filter (matchesRequester email status?)) ∧
    (myDonationRequests store email status? (some page) (some limit)).1.Pairwise
      (fun a b => b.createdAt ≤ a.createdAt) ∧
    (myDonationRequests store email status? (some page) (some limit)).2 =
      jsCeilDiv (store.filter (matchesRequester email status?)).length limit ∧
    (store.filter (matchesRequester email status?)).length ≤
      (myDonationRequests store email status? (some page) (some limit)).2 * limit ∧
    (myDonationRequests store email status? (some page) (some limit)).2 * limit <
      (store.filter (matchesRequester email status?)).length + limit ∧
    myDonationRequests store email status? none none =
      myDonationRequests store email status? (some 1) (some 5) := by
  have htot : ∀ a b : DonationRequest,
      createdAtDesc a b = true ∨ createdAtDesc b a = true := by
    intro a b
    unfold createdAtDesc
    rcases Nat.le_total b.createdAt a.createdAt with h | h
    · exact Or.inl (Nat.ble_eq.mpr h)
    · exact Or.inr (Nat.ble_eq.mpr h)
  have htrans : ∀ a b c : DonationRequest, createdAtDesc a b = true →
      createdAtDesc b c = true → createdAtDesc a c = true := by
    intro a b c h1 h2
    unfold createdAtDesc at h1 h2 ⊢
    exact Nat.ble_eq.mpr (Nat.le_trans (Nat.ble_eq.mp h2) (Nat.ble_eq.mp h1))
  have hsort := sortLe_sorted createdAtDesc htot htrans
    (store.filter (matchesRequester email status?))
  have hspec := jsCeilDiv_spec
    (store.filter (matchesRequester email status?)).length limit hl
  refine ⟨rfl, List.length_take_le _ _, sortLe_perm _ _, ?_, rfl, hspec.1, hspec.2, rfl⟩
  have hsub : (((sortLe createdAtDesc (store.filter (matchesRequester email status?))).drop
      ((page - 1) * limit)).take limit).Sublist
      (sortLe createdAtDesc (store.filter (matchesRequester email status?))) :=
    (List.take_sublist _ _).trans (List.drop_sublist _ _)
  have hp2 := List.Pairwise.sublist hsub hsort
  exact hp2.imp (fun h => Nat.ble_eq.mp h)

/-- Witness for `c8_my_requests_pagination`: twelve matching records,
page 2 with limit 5 returns exactly the sixth through tenth records in
newest-first order, and totalPages is 3. -/
theorem c8_my_requests_pagination_witness :
    (1 ≤ 2 ∧ (1 : Nat) ≤ 5) ∧
    (reqsTwelve.filter (matchesRequester "rafia@example.com" none)).length = 12 ∧
    (myDonationRequests reqsTwelve "rafia@example.com" none (some 2) (some 5)).1 =
      [pageReq 7, pageReq 6, pageReq 5, pageReq 4, pageReq 3] ∧
    (myDonationRequests reqsTwelve "rafia@example.com" none (some 2) (some 5)).2 = 3 ∧
    (myDonationRequests reqsTwelve "rafia@example.com" none (some 2) (some 5)).1.length ≤ 5 := by
  refine ⟨⟨by decide, by decide⟩, by decide, by decide, by decide, ?_⟩
  exact (c8_my_requests_pagination reqsTwelve "rafia@example.com" none 2 5
    (by decide) (by decide)).2.1

/-- C9: the self-service profile update writes the patch verbatim, with
no allow-list: the matched account document becomes its `$set`-merge
with the whole patch, and every field of the patch — `role` and `status`
included — ends up stored with exactly the patched value. -/
theorem c9_profile_update_has_no_allowlist (pre post : List Doc) (u patch : Doc)
    (email : String)
    (hpre : ∀ d ∈ pre, matchesEmail email d = false)
    (hu : matchesEmail email u = true)
    (hnd : (patch.map Prod.fst).Nodup) :
    (updateProfile (pre ++ u :: post) email patch).docs =
      pre ++ mergePatch u patch :: post ∧
    (∀ k v, (k, v) ∈ patch → getField (mergePatch u patch) k = some v) := by
  constructor
  · unfold updateProfile
    rw [updateFirst_first_match _ _ _ _ _ hpre hu]
  · intro k v hkv
    exact getField_mergePatch_mem _ _ _ _ hnd hkv

/-- Witness for `c9_profile_update_has_no_allowlist`: a donor account
patched with role `admin` and status `blocked` through the profile route
really stores those values. -/
theorem c9_profile_update_has_no_allowlist_witness :
    matchesEmail "umme@example.com" userUmme = true ∧
    (profilePatch.map Prod.fst).Nodup ∧
    ((updateProfile [userUmme] "umme@example.com" profilePatch).docs =
        [mergePatch userUmme profilePatch] ∧
      (∀ k v, (k, v) ∈ profilePatch →
        getField (mergePatch userUmme profilePatch) k = some v)) ∧
    getField (mergePatch userUmme profilePatch) "role" = some "admin" ∧
    getField (mergePatch userUmme profilePatch) "status" = some "blocked" := by
  refine ⟨by decide, by decide, ?_, by decide, by decide⟩
  exact c9_profile_update_has_no_allowlist [] [] userUmme profilePatch
    "umme@example.com" (by intro d hd; cases hd) (by decide) (by decide)

/-- C10: both admin listings compute `totalPages` from the unfiltered
collection count — it equals `ceil(collection size / limit)` and is
independent of the status filter — and on a 20-document collection with
a single match for the filter, `totalPages` is 2 while only one page of
filtered results is returnable (page 2 comes back empty). -/
theorem c10_admin_totalPages_ignores_filter (storeU : List Doc)
    (storeR : List DonationRequest) (page limit : Nat) (status status2 : String) :
    (adminListUsers storeU page limit status).2.1 = jsCeilDiv storeU.length limit ∧
    (adminListUsers storeU page limit status).2.1 =
      (adminListUsers storeU page limit status2).2.1 ∧
    (adminListRequests storeR page limit status).2 = jsCeilDiv storeR.length limit ∧
    (adminListRequests storeR page limit status).2 =
      (adminListRequests storeR page limit status2).2 ∧
    (adminListUsers usersTwenty 1 10 "active").2.1 = 2 ∧
    jsCeilDiv (statusFilterDocs usersTwenty "active").length 10 = 1 ∧
    (adminListUsers usersTwenty 2 10 "active").1 = [] ∧
    (adminListRequests reqsTwenty 1 10 "pending").2 = 2 ∧
    jsCeilDiv (statusFilterReqs reqsTwenty "pending").length 10 = 1 ∧
    (adminListRequests reqsTwenty 2 10 "pending").1 = [] := by
  refine ⟨rfl, rfl, rfl, rfl, by decide, by decide, by decide, by decide, by decide, by decide⟩

end BloodGrid
